import Mathlib

/-!
# Verification of the synthetic gas-usage generator

Shallow embedding of `Synthetic Data/generator.py`.

Modelling conventions:

* Python floats are modelled as exact rationals (`ℚ`); the decimal literals of
  the source (`0.12`, `0.10`, ...) are embedded as the exact rationals they
  denote.  `round` is modelled as round-half-to-even (Python's `round`).
* Python's global Mersenne-Twister stream is modelled abstractly: a draw
  source `u : Nat → Nat → ℚ` maps a seed and a position in that seed's stream
  to a unit-interval value, and an `RNG` value is a (seed, position) pair.
  `random.seed(n)` resets the state to `⟨n, 0⟩`; `random.Random(n)` builds a
  fresh independent state `⟨n, 0⟩`.  `random.random()` consumes one draw;
  `random.uniform a b = a + (b-a)·random()` consumes one draw;
  `random.choice xs` is modelled as one draw mapped to an index (clamped into
  range, which is the identity for draws in `[0,1)`); `random.shuffle` is
  modelled as repeatedly drawing an index and extracting that element.
* Python's salted string hash is abstract as well: the embedding is
  parametrised by `hashS : String → ℤ` (seed derivation from the scenario id)
  and `hashD : String → Nat → ℤ` (day seed from scenario id and date).
* Dates are modelled as day indices counted from a Monday epoch, so
  `weekday d = d % 7` and Saturday/Sunday are the residues 5 and 6; an hour
  timestamp is the absolute hour `day * 24 + hour`.  The date string used in
  the output rows and for the day-level hash is represented by the day index
  (the `%Y-%m-%d` formatting is injective).
* The CSV writer is a boundary: the generator is embedded up to the list of
  output records; `usage_therms` holds the exact rational that the `.3f`
  format would print (the value after rounding to 3 decimals) and `avg_usage`
  the value the `.6f` format would print.
-/

namespace GasGen

/-- State of a Python `random.Random` instance: which seed it was built from
and how many draws have been consumed. -/
structure RNG where
  seed : Nat
  idx : Nat
deriving DecidableEq, Repr

/-- `random.random()`: one unit-interval draw from the abstract source `u`. -/
def randFloat (u : Nat → Nat → ℚ) (g : RNG) : ℚ × RNG :=
  (u g.seed g.idx, ⟨g.seed, g.idx + 1⟩)

/-- `frand(a, b)` = `random.uniform(a, b)` = `a + (b - a) * random()`. -/
def frand (u : Nat → Nat → ℚ) (a b : ℚ) (g : RNG) : ℚ × RNG :=
  (a + (b - a) * (randFloat u g).1, (randFloat u g).2)

/-- One draw mapped to an index `< n` (Python `_randbelow`); the clamp to
`n - 1` is the identity whenever the draw lies in `[0,1)`. -/
def randIndex (u : Nat → Nat → ℚ) (n : Nat) (g : RNG) : Nat × RNG :=
  (min (Int.toNat ⌊(randFloat u g).1 * n⌋) (n - 1), (randFloat u g).2)

/-- `random.choice(xs)`. -/
def randChoice (u : Nat → Nat → ℚ) (xs : List Nat) (g : RNG) : Nat × RNG :=
  (xs.getD (randIndex u xs.length g).1 0, (randIndex u xs.length g).2)

/-- `random.shuffle`, modelled as: repeatedly draw an index into the remaining
list, move that element to the front, recurse on the rest.  The fuel argument
makes the recursion structural; `randShuffle` supplies fuel = length. -/
def shuffleN {α : Type} (u : Nat → Nat → ℚ) :
    Nat → List α → RNG → List α × RNG
  | 0, _, g => ([], g)
  | _ + 1, [], g => ([], g)
  | n + 1, x :: xs, g =>
    let i := (randIndex u (xs.length + 1) g).1
    let g1 := (randIndex u (xs.length + 1) g).2
    let tailStep := shuffleN u n ((x :: xs).eraseIdx i) g1
    ((x :: xs).getD i x :: tailStep.1, tailStep.2)

/-- `random.shuffle(l)` (as a pure permutation of `l`). -/
def randShuffle {α : Type} (u : Nat → Nat → ℚ) (l : List α) (g : RNG) :
    List α × RNG :=
  shuffleN u l.length l g

/-- Python `round` to an integer: round half to even. -/
def roundHalfEven (q : ℚ) : ℤ :=
  if q - ⌊q⌋ < 1/2 then ⌊q⌋
  else if q - ⌊q⌋ > 1/2 then ⌊q⌋ + 1
  else if ⌊q⌋ % 2 = 0 then ⌊q⌋ else ⌊q⌋ + 1

/-- Python `round(q, 3)`. -/
def pyRound3 (q : ℚ) : ℚ := (roundHalfEven (q * 1000) : ℚ) / 1000

/-- Python `round(q, 6)`. -/
def pyRound6 (q : ℚ) : ℚ := (roundHalfEven (q * 1000000) : ℚ) / 1000000

/-- Does `hay` start with `needle`? (helper for substring containment). -/
def strStartsWith : List Char → List Char → Bool
  | _, [] => true
  | [], _ :: _ => false
  | a :: as, b :: bs => a == b && strStartsWith as bs

/-- Substring containment on character lists. -/
def strContainsAux : List Char → List Char → Bool
  | [], needle => needle.isEmpty
  | a :: as, needle => strStartsWith (a :: as) needle || strContainsAux as needle

/-- Python's `needle in hay` on strings (substring containment), used for the
appliance-token tests. -/
def strContains (hay needle : String) : Bool :=
  strContainsAux hay.toList needle.toList

/-! ## Config and scaling parameters (source lines 11-39) -/

def RNG_SEED : Nat := 1337

def SHOWER_THERMS : ℚ := 1/10

def DRYER_THERMS_PER_LOAD : ℚ := 3/10

/-- `COOKING_RULES[occ]["factor"]` with the `.get(occ, {"factor": 1.0})`
default (the `events` field of `COOKING_RULES` is never read by the
generator). -/
def cookingFactor (occupancy : ℤ) : ℚ :=
  if occupancy = 1 then 3/5
  else if occupancy = 2 then 4/5
  else if occupancy = 3 then 1
  else if occupancy = 4 then 6/5
  else if occupancy = 5 then 13/10
  else 1

/-- `COOKING_EVENT_SIZES` lower/upper bounds: breakfast (0.02, 0.025),
lunch (0.012, 0.018), dinner (0.025, 0.035). -/
def BREAKFAST_LO : ℚ := 1/50
def BREAKFAST_HI : ℚ := 1/40
def LUNCH_LO : ℚ := 3/250
def LUNCH_HI : ℚ := 9/500
def DINNER_LO : ℚ := 1/40
def DINNER_HI : ℚ := 7/200

/-- `VARIATION_PCT = (0.10, 0.15)`. -/
def VARIATION_LO : ℚ := 1/10
def VARIATION_HI : ℚ := 3/20

/-- `with_variation` (source lines 57-60): flip a sign with one draw, draw a
percentage in `VARIATION_PCT`, perturb, floor at zero. -/
def with_variation (u : Nat → Nat → ℚ) (val : ℚ) (g : RNG) : ℚ × RNG :=
  let sign : ℚ := if (randFloat u g).1 < 1/2 then 1 else -1
  let pctStep := frand u VARIATION_LO VARIATION_HI (randFloat u g).2
  (max 0 (val * (1 + sign * pctStep.1)), pctStep.2)

/-- `base_heating_rate_sqft` (source lines 80-82):
`0.12 * (home_sqft / 2000.0)`. -/
def base_heating_rate_sqft (home_sqft : ℤ) : ℚ :=
  12/100 * ((home_sqft : ℚ) / 2000)

/-- `heating_for_temp` (source lines 84-99): descending strict-lower-bound
band tests, first match wins. -/
def heating_for_temp (temp_f base_heating : ℚ) : ℚ :=
  if temp_f > 70 then 0
  else if temp_f > 60 then base_heating * (3/10)
  else if temp_f > 50 then base_heating * (6/10)
  else if temp_f > 40 then base_heating * (9/10)
  else base_heating * (12/10)

/-- Result of `choose_event_hours`: the `{"breakfast": ..., "lunch": ...,
"dinner": ...}` dict. -/
structure EventHours where
  breakfast : List Nat
  lunch : List Nat
  dinner : List Nat
deriving DecidableEq, Repr

/-- `choose_event_hours` (source lines 101-118).  Consumes, from the stream it
is given (the scenario-level one), one draw for the 40% lunch toggle and one
draw for the dinner hour `18 + choice([0,1,2])`.  `season` and `occupancy`
are parameters the source never reads. -/
def choose_event_hours (u : Nat → Nat → ℚ) (season : String) (occupancy : ℤ)
    (g : RNG) : EventHours × RNG :=
  let breakfast_hour : Nat := 7
  let dinner_hour : Nat := 18
  let lunch_hours : List Nat := if (randFloat u g).1 < 2/5 then [11] else []
  let cStep := randChoice u [0, 1, 2] (randFloat u g).2
  (⟨[breakfast_hour], lunch_hours, [dinner_hour + cStep.1]⟩, cStep.2)

/-- `showers_for_day` (source lines 120-125): one `choice([7, 20])` per
occupant (`range(occupancy)` is empty for non-positive occupancy, which is why
the count argument is the `toNat`). -/
def showers_for_day (u : Nat → Nat → ℚ) : Nat → RNG → List Nat × RNG
  | 0, g => ([], g)
  | n + 1, g =>
    let hStep := randChoice u [7, 20] g
    let restStep := showers_for_day u n hStep.2
    (hStep.1 :: restStep.1, restStep.2)

/-- `dryer_load_hours_for_week` (source lines 127-129):
`max(0, round(occupancy / 2))`. -/
def dryer_load_hours_for_week (occupancy : ℤ) : Nat :=
  (max 0 (roundHalfEven ((occupancy : ℚ) / 2))).toNat

/-- The candidate hours of one day of a dryer block: midday hours 10-13 on a
weekend day (`d.weekday() >= 5`, i.e. `d % 7 ≥ 5` from the Monday epoch),
evening hours 19-21 on a weekday. -/
def dayCandidates (d : Nat) : List (Nat × Nat) :=
  if d % 7 ≥ 5 then (List.range' 10 4).map fun h => (d, h)
  else (List.range' 19 3).map fun h => (d, h)

/-- The `candidate_hours` list built for the 7-day block starting at day
`week_start`. -/
def weekCandidates (week_start : Nat) : List (Nat × Nat) :=
  (List.range 7).flatMap fun i => dayCandidates (week_start + i)

/-- The while-loop of `distribute_dryer_hours`, one iteration per 7-day block
(`weeks` is the trip count, computed by `distribute_dryer_hours`).  Each
block shuffles its candidates and keeps the first `loads` of them, recorded
as absolute hours `d * 24 + h` (the `datetime(d, h)` dict keys; only
membership in the dict is ever consulted). -/
def distributeGo (u : Nat → Nat → ℚ) (loads : Nat) :
    Nat → Nat → RNG → List Nat × RNG
  | 0, _, g => ([], g)
  | w + 1, day, g =>
    let shufStep := randShuffle u (weekCandidates day) g
    let picks := (shufStep.1.take loads).map fun dh => dh.1 * 24 + dh.2
    let restStep := distributeGo u loads w (day + 7) shufStep.2
    (picks ++ restStep.1, restStep.2)

/-- `distribute_dryer_hours` (source lines 131-154).  The loop runs for week
starts `start, start+7, ...` while `≤ endDay`, i.e. `(endDay - startDay)/7 + 1`
iterations when the range is nonempty. -/
def distribute_dryer_hours (u : Nat → Nat → ℚ) (startDay endDay : Nat)
    (occupancy : ℤ) (g : RNG) : List Nat × RNG :=
  distributeGo u (dryer_load_hours_for_week occupancy)
    (if startDay ≤ endDay then (endDay - startDay) / 7 + 1 else 0) startDay g

/-- `target_daily_avg` (source lines 156-182). -/
def target_daily_avg (season : String) (occupancy : ℤ) (home_sqft : ℤ) : ℚ :=
  if season = "summer" then
    if occupancy = 1 then 1/5
    else if occupancy = 2 then 7/20
    else if occupancy = 3 then 1/2
    else if occupancy = 4 then 3/5
    else if occupancy = 5 then 7/10
    else 1/2
  else
    if home_sqft = 1000 then 2
    else if home_sqft = 1200 then 9/4
    else if home_sqft = 1400 then 5/2
    else if home_sqft = 1600 then 27/10
    else if home_sqft = 1800 then 3
    else if home_sqft = 2000 then 3
    else if home_sqft = 2200 then 7/2
    else if home_sqft = 2400 then 19/5
    else if home_sqft = 2600 then 41/10
    else if home_sqft = 2800 then 22/5
    else if home_sqft = 3000 then 19/4
    else 3

/-- The `Scenario` dataclass (source lines 42-52).  Dates are day indices
from a Monday epoch; the temperature source and the output sink are passed
separately at the `generate_scenario` boundary. -/
structure Scenario where
  scenario_id : String
  season : String
  startDay : Nat
  endDay : Nat
  home_sqft : ℤ
  occupancy : ℤ
  appliances : String
deriving DecidableEq, Repr

/-- One output record (source lines 309-319).  `usage_therms` and `avg_usage`
hold the exact rationals the `.3f` / `.6f` formats print. -/
structure HourRow where
  day : Nat
  hour : Nat
  temp : ℤ
  usage_therms : ℚ
  avg_usage : ℚ
  season : String
  home_sqft : ℤ
  occupancy : ℤ
  appliances : String
deriving DecidableEq, Repr

/-- `temps.get(cur, 72.0)` (source line 225): lenient lookup with the fixed
72 °F default. -/
def lookupTemp (temps : Nat → Option ℚ) (t : Nat) : ℚ :=
  (temps t).getD 72

/-- Seed of the day-level stream: `hash((scenario_id, dstr)) % 100000`
(source lines 236 and 278); Python's `%` with a positive modulus is `emod`. -/
def daySeed (hashD : String → Nat → ℤ) (scenario_id : String) (day : Nat) :
    Nat :=
  ((hashD scenario_id day).emod 100000).toNat

/-- One meal gate of the stove block: if the hour is one of the event
hours, draw the day-level gate and — when it passes — the event size scaled
by the occupancy factor.  Returns the hour's contribution and the advanced
day-level state (the `and` in the source short-circuits, so nothing is drawn
when the hour does not match). -/
def mealGate (u : Nat → Nat → ℚ) (occupancy : ℤ) (active : Prop)
    [Decidable active] (prob lo hi : ℚ) (rnd : RNG) : ℚ × RNG :=
  if active then
    if (randFloat u rnd).1 < prob then
      ((frand u lo hi (randFloat u rnd).2).1 * cookingFactor occupancy,
        (frand u lo hi (randFloat u rnd).2).2)
    else (0, (randFloat u rnd).2)
  else (0, rnd)

/-- The summer stove block (source lines 232-256): re-draw the event hours
from the scenario-level stream, build the day-level generator from the day
seed, then gate breakfast, dinner, lunch — in that order — against the
day-level stream.  Each `and` in the source short-circuits, so a gate draw is
consumed only when the hour matches.  Returns the cooking usage for this hour
and the advanced scenario-level state (the day-level generator is local). -/
def summerStoveUsage (u : Nat → Nat → ℚ) (hashD : String → Nat → ℤ)
    (scenario_id : String) (season : String) (occupancy : ℤ)
    (hour day : Nat) (g : RNG) : ℚ × RNG :=
  let hoursStep := choose_event_hours u season occupancy g
  let hours := hoursStep.1
  let rnd : RNG := ⟨daySeed hashD scenario_id day, 0⟩
  let breakfast_prob : ℚ := if occupancy = 1 then 3/10 else 3/5
  let dinner_prob : ℚ := if occupancy = 1 then 4/5 else 9/10
  let lunch_prob : ℚ := 1/4
  let bStep := mealGate u occupancy (hour ∈ hours.breakfast) breakfast_prob
    BREAKFAST_LO BREAKFAST_HI rnd
  let dStep := mealGate u occupancy (hour ∈ hours.dinner) dinner_prob
    DINNER_LO DINNER_HI bStep.2
  let lStep := mealGate u occupancy
    (¬hours.lunch.isEmpty ∧ hour ∈ hours.lunch) lunch_prob
    LUNCH_LO LUNCH_HI dStep.2
  (bStep.1 + dStep.1 + lStep.1, hoursStep.2)

/-- The winter stove block (source lines 276-292): day generator seeded at
`day_seed + 42`, flat probabilities 0.75 / 0.4 / 0.9, and the gates run in
source order breakfast, lunch, dinner. -/
def winterStoveUsage (u : Nat → Nat → ℚ) (hashD : String → Nat → ℤ)
    (scenario_id : String) (season : String) (occupancy : ℤ)
    (hour day : Nat) (g : RNG) : ℚ × RNG :=
  let hoursStep := choose_event_hours u season occupancy g
  let hours := hoursStep.1
  let rnd : RNG := ⟨daySeed hashD scenario_id day + 42, 0⟩
  let bStep := mealGate u occupancy (hour ∈ hours.breakfast) (3/4)
    BREAKFAST_LO BREAKFAST_HI rnd
  let lStep := mealGate u occupancy
    (¬hours.lunch.isEmpty ∧ hour ∈ hours.lunch) (2/5)
    LUNCH_LO LUNCH_HI bStep.2
  let dStep := mealGate u occupancy (hour ∈ hours.dinner) (9/10)
    DINNER_LO DINNER_HI lStep.2
  (bStep.1 + lStep.1 + dStep.1, hoursStep.2)

/-- The water-heater block (source lines 258-262 / 294-297): fresh shower
hours each hour from the scenario-level stream, then a membership test —
`usage += SHOWER_THERMS` once, however many occupants landed on the hour. -/
def showerUsage (u : Nat → Nat → ℚ) (occupancy : ℤ) (hour : Nat) (g : RNG) :
    ℚ × RNG :=
  let sStep := showers_for_day u occupancy.toNat g
  (if hour ∈ sStep.1 then SHOWER_THERMS else 0, sStep.2)

/-- The dryer contribution of an hour (source lines 264-266 / 299-300):
`DRYER_THERMS_PER_LOAD` when the hour is a scheduled dryer-load hour. -/
def dryerAddend (has_dryer : Bool) (dryer_hours_map : List Nat) (t : Nat) :
    ℚ :=
  if has_dryer ∧ t ∈ dryer_hours_map then DRYER_THERMS_PER_LOAD else 0

/-- The pre-jitter usage composed for absolute hour `t` (source lines
227-300): the summer branch stacks cooking, showers, dryer; the winter
branch stacks furnace heating and then the same three appliance blocks. -/
def hourStepPre (u : Nat → Nat → ℚ) (hashD : String → Nat → ℤ)
    (scenario_id season : String) (occupancy : ℤ)
    (has_furnace has_stove has_water_heater has_dryer : Bool)
    (base_heat : ℚ) (dryer_hours_map : List Nat) (temp : ℚ) (t : Nat)
    (g : RNG) : ℚ × RNG :=
  let hour := t % 24
  let day := t / 24
  if season = "summer" then
    let s1 : ℚ × RNG :=
      if has_stove then
        summerStoveUsage u hashD scenario_id season occupancy hour day g
      else (0, g)
    let s2 : ℚ × RNG :=
      if has_water_heater then showerUsage u occupancy hour s1.2
      else (0, s1.2)
    (s1.1 + s2.1 + dryerAddend has_dryer dryer_hours_map t, s2.2)
  else
    let heat : ℚ := if has_furnace then heating_for_temp temp base_heat else 0
    let s1 : ℚ × RNG :=
      if has_stove then
        winterStoveUsage u hashD scenario_id season occupancy hour day g
      else (0, g)
    let s2 : ℚ × RNG :=
      if has_water_heater then showerUsage u occupancy hour s1.2
      else (0, s1.2)
    (heat + s1.1 + s2.1 + dryerAddend has_dryer dryer_hours_map t, s2.2)

/-- The jitter-and-guardrail tail of the hour body (source lines 302-307):
perturb only strictly positive usage, then `max(0.0, round(usage, 3))`. -/
def finalizeUsage (u : Nat → Nat → ℚ) (usage : ℚ) (g : RNG) : ℚ × RNG :=
  let step : ℚ × RNG :=
    if usage > 0 then with_variation u usage g else (usage, g)
  (max 0 (pyRound3 step.1), step.2)

/-- One iteration of the hourly while-loop (source lines 222-320): look up
the temperature (with the 72 °F fallback), compose, jitter, clamp, and
assemble the output record. -/
def hourStep (u : Nat → Nat → ℚ) (hashD : String → Nat → ℤ) (sc : Scenario)
    (has_furnace has_stove has_water_heater has_dryer : Bool)
    (base_heat : ℚ) (dryer_hours_map : List Nat) (temps : Nat → Option ℚ)
    (avg_usage_col : ℚ) (t : Nat) (g : RNG) : HourRow × RNG :=
  let temp := lookupTemp temps t
  let pre := hourStepPre u hashD sc.scenario_id sc.season sc.occupancy
    has_furnace has_stove has_water_heater has_dryer base_heat
    dryer_hours_map temp t g
  let fin := finalizeUsage u pre.1 pre.2
  ({ day := t / 24, hour := t % 24, temp := roundHalfEven temp,
     usage_therms := fin.1, avg_usage := avg_usage_col,
     season := sc.season, home_sqft := sc.home_sqft,
     occupancy := sc.occupancy, appliances := sc.appliances }, fin.2)

/-- The hourly while-loop, with its trip count made explicit (`n` rows
starting at absolute hour `cur`). -/
def genHours (u : Nat → Nat → ℚ) (hashD : String → Nat → ℤ) (sc : Scenario)
    (has_furnace has_stove has_water_heater has_dryer : Bool)
    (base_heat : ℚ) (dryer_hours_map : List Nat) (temps : Nat → Option ℚ)
    (avg_usage_col : ℚ) : Nat → Nat → RNG → List HourRow × RNG
  | 0, _, g => ([], g)
  | n + 1, cur, g =>
    let step := hourStep u hashD sc has_furnace has_stove has_water_heater
      has_dryer base_heat dryer_hours_map temps avg_usage_col cur g
    let rest := genHours u hashD sc has_furnace has_stove has_water_heater
      has_dryer base_heat dryer_hours_map temps avg_usage_col n (cur + 1)
      step.2
    (step.1 :: rest.1, rest.2)

/-- `generate_scenario` (source lines 187-326).  `random.seed(RNG_SEED +
hash(scenario_id) % 1000000)` discards the incoming global generator state
`g0`; the scenario-level stream is then consumed in source order: dryer
schedule first, then per-hour event/jitter draws.  Returns the list of
records handed to the CSV writer. -/
def generate_scenario (u : Nat → Nat → ℚ) (hashS : String → ℤ)
    (hashD : String → Nat → ℤ) (sc : Scenario) (temps : Nat → Option ℚ)
    (g0 : RNG) : List HourRow :=
  let g : RNG := ⟨RNG_SEED + ((hashS sc.scenario_id).emod 1000000).toNat, 0⟩
  let has_furnace := strContains sc.appliances "furnace"
  let has_stove := strContains sc.appliances "stove"
  let has_water_heater := strContains sc.appliances "water_heater"
  let has_dryer := strContains sc.appliances "dryer"
  let dryerStep : List Nat × RNG :=
    if has_dryer then distribute_dryer_hours u sc.startDay sc.endDay
      sc.occupancy g
    else ([], g)
  let base_heat : ℚ :=
    if has_furnace then base_heating_rate_sqft sc.home_sqft else 0
  let daily_target := target_daily_avg sc.season sc.occupancy sc.home_sqft
  let avg_usage_col := pyRound6 (daily_target / 24)
  (genHours u hashD sc has_furnace has_stove has_water_heater has_dryer
    base_heat dryerStep.1 temps avg_usage_col
    (sc.endDay * 24 + 23 + 1 - sc.startDay * 24) (sc.startDay * 24)
    dryerStep.2).1

/-! ## Helper lemmas -/

lemma mealGate_neg (u : Nat → Nat → ℚ) (occ : ℤ) {active : Prop}
    [Decidable active] (p lo hi : ℚ) (rnd : RNG) (h : ¬active) :
    mealGate u occ active p lo hi rnd = (0, rnd) := by
  simp [mealGate, h]

lemma roundHalfEven_nonpos {q : ℚ} (hq : q ≤ 0) : roundHalfEven q ≤ 0 := by
  unfold roundHalfEven
  have hfl : ⌊q⌋ ≤ 0 := by
    have := Int.floor_le_floor hq
    simpa using this
  split_ifs with h1 h2 h3
  · exact hfl
  · have h4 : (⌊q⌋ : ℚ) < 0 := by linarith
    have h5 : ⌊q⌋ < 0 := by exact_mod_cast h4
    omega
  · exact hfl
  · have h4 : (⌊q⌋ : ℚ) < 0 := by linarith
    have h5 : ⌊q⌋ < 0 := by exact_mod_cast h4
    omega

lemma pyRound3_nonpos {q : ℚ} (hq : q ≤ 0) : pyRound3 q ≤ 0 := by
  unfold pyRound3
  have h1 : q * 1000 ≤ 0 := by nlinarith
  have h2 : roundHalfEven (q * 1000) ≤ 0 := roundHalfEven_nonpos h1
  have h3 : ((roundHalfEven (q * 1000) : ℚ)) ≤ 0 := by exact_mod_cast h2
  linarith

/-- A non-positive composed usage skips the jitter draw entirely and is
emitted as exactly zero, with the stream untouched. -/
lemma finalizeUsage_nonpos (u : Nat → Nat → ℚ) (g : RNG) {x : ℚ}
    (hx : x ≤ 0) : finalizeUsage u x g = (0, g) := by
  unfold finalizeUsage
  have hnot : ¬x > 0 := not_lt.mpr hx
  simp only [hnot, if_false]
  have : max 0 (pyRound3 x) = 0 := max_eq_left (pyRound3_nonpos hx)
  simp [this]

lemma randChoice_mem (u : Nat → Nat → ℚ) (xs : List Nat) (g : RNG)
    (hxs : xs ≠ []) : (randChoice u xs g).1 ∈ xs := by
  unfold randChoice randIndex randFloat
  have hlen : 0 < xs.length := List.length_pos.mpr hxs
  set i := min (Int.toNat ⌊u g.seed g.idx * xs.length⌋) (xs.length - 1) with hi
  have hilt : i < xs.length := by omega
  simp only
  rw [List.getD_eq_getElem _ _ hilt]
  exact List.getElem_mem hilt

lemma choose_breakfast (u : Nat → Nat → ℚ) (s : String) (o : ℤ) (g : RNG) :
    (choose_event_hours u s o g).1.breakfast = [7] := rfl

lemma choose_lunch_sub (u : Nat → Nat → ℚ) (s : String) (o : ℤ) (g : RNG)
    {h : Nat} (hmem : h ∈ (choose_event_hours u s o g).1.lunch) : h = 11 := by
  unfold choose_event_hours at hmem
  simp only at hmem
  split_ifs at hmem with hc
  · simpa using hmem
  · simp at hmem

lemma choose_dinner_sub (u : Nat → Nat → ℚ) (s : String) (o : ℤ) (g : RNG)
    {h : Nat} (hmem : h ∈ (choose_event_hours u s o g).1.dinner) :
    h = 18 ∨ h = 19 ∨ h = 20 := by
  have hc : (randChoice u [0, 1, 2] (randFloat u g).2).1 ∈ ([0, 1, 2] : List Nat) :=
    randChoice_mem _ _ _ (by simp)
  unfold choose_event_hours at hmem
  rw [List.mem_singleton] at hmem
  simp only [List.mem_cons, List.mem_singleton, List.not_mem_nil, or_false]
    at hc
  rcases hc with h0 | h1 | h2 <;> subst hmem <;> omega

/-- Outside hours 7, 11 and 18-20, the summer cooking block contributes
nothing. -/
lemma summerStoveUsage_eq_zero (u : Nat → Nat → ℚ)
    (hashD : String → Nat → ℤ) (sid season : String) (occ : ℤ)
    (hour day : Nat) (g : RNG) (h7 : hour ≠ 7) (h11 : hour ≠ 11)
    (h18 : hour ≠ 18) (h19 : hour ≠ 19) (h20 : hour ≠ 20) :
    (summerStoveUsage u hashD sid season occ hour day g).1 = 0 := by
  unfold summerStoveUsage
  simp only [choose_breakfast]
  have hbm : hour ∉ (choose_event_hours u season occ g).1.breakfast := by
    rw [choose_breakfast]; simp [h7]
  have hdm : hour ∉ (choose_event_hours u season occ g).1.dinner := by
    intro hmem
    rcases choose_dinner_sub u season occ g hmem with h | h | h <;> omega
  have hlm : hour ∉ (choose_event_hours u season occ g).1.lunch := by
    intro hmem
    exact h11 (choose_lunch_sub u season occ g hmem)
  simp [hbm, hdm, hlm, mealGate_neg, h7]

lemma genHours_length (u : Nat → Nat → ℚ) (hashD : String → Nat → ℤ)
    (sc : Scenario) (f1 f2 f3 f4 : Bool) (bh : ℚ) (dmap : List Nat)
    (temps : Nat → Option ℚ) (avg : ℚ) :
    ∀ (n cur : Nat) (g : RNG),
      (genHours u hashD sc f1 f2 f3 f4 bh dmap temps avg n cur g).1.length
        = n := by
  intro n
  induction n with
  | zero => intro cur g; rfl
  | succ m ih =>
    intro cur g
    simp only [genHours, List.length_cons, ih]

lemma genHours_mem (u : Nat → Nat → ℚ) (hashD : String → Nat → ℤ)
    (sc : Scenario) (f1 f2 f3 f4 : Bool) (bh : ℚ) (dmap : List Nat)
    (temps : Nat → Option ℚ) (avg : ℚ) :
    ∀ (n cur : Nat) (g : RNG) (row : HourRow),
      row ∈ (genHours u hashD sc f1 f2 f3 f4 bh dmap temps avg n cur g).1 →
      ∃ (t : Nat) (g1 : RNG), cur ≤ t ∧ t < cur + n ∧
        row = (hourStep u hashD sc f1 f2 f3 f4 bh dmap temps avg t g1).1 := by
  intro n
  induction n with
  | zero => intro cur g row hmem; simp [genHours] at hmem
  | succ m ih =>
    intro cur g row hmem
    simp only [genHours, List.mem_cons] at hmem
    rcases hmem with hrow | hrest
    · exact ⟨cur, g, le_refl _, by omega, hrow⟩
    · obtain ⟨t, g1, ht1, ht2, hrow⟩ := ih (cur + 1) _ row hrest
      exact ⟨t, g1, by omega, by omega, hrow⟩

/-- In a summer hour with only a stove (no furnace, water heater or dryer,
empty dryer schedule), the composed pre-jitter usage is zero whenever the
hour of day is none of 7, 11, 18, 19, 20. -/
lemma hourStepPre_stove_only_zero (u : Nat → Nat → ℚ)
    (hashD : String → Nat → ℤ) (sid season : String) (occ : ℤ) (bh temp : ℚ)
    (t : Nat) (g : RNG) (hsea : season = "summer") (h7 : t % 24 ≠ 7)
    (h11 : t % 24 ≠ 11) (h18 : t % 24 ≠ 18) (h19 : t % 24 ≠ 19)
    (h20 : t % 24 ≠ 20) :
    (hourStepPre u hashD sid season occ false true false false bh [] temp t
      g).1 = 0 := by
  subst hsea
  unfold hourStepPre
  rw [if_pos rfl]
  simp [dryerAddend,
    summerStoveUsage_eq_zero u hashD sid _ occ _ _ g h7 h11 h18 h19 h20]

lemma cons_eraseIdx_perm {α : Type} :
    ∀ (l : List α) (i : Nat) (h : i < l.length),
      (l.get ⟨i, h⟩ :: l.eraseIdx i).Perm l
  | a :: l, 0, _ => by simp [List.eraseIdx]
  | a :: l, i + 1, h => by
    have hi : i < l.length := by simpa using h
    have ih := cons_eraseIdx_perm l i hi
    simpa [List.eraseIdx] using (List.Perm.swap a _ _).trans (ih.cons a)

/-- The shuffle returns a permutation of its input whenever the fuel covers
the length (as `randShuffle` arranges). -/
lemma shuffleN_perm {α : Type} (u : Nat → Nat → ℚ) :
    ∀ (n : Nat) (l : List α) (g : RNG), l.length ≤ n →
      ((shuffleN u n l g).1).Perm l := by
  intro n
  induction n with
  | zero =>
    intro l g hl
    have : l = [] := List.length_eq_zero.mp (by omega)
    subst this
    exact List.Perm.refl _
  | succ m ih =>
    intro l g hl
    match l with
    | [] => exact List.Perm.refl _
    | x :: xs =>
      have hi : (randIndex u (xs.length + 1) g).1 < (x :: xs).length := by
        unfold randIndex
        simp only [List.length_cons]
        omega
      have hrest : ((x :: xs).eraseIdx (randIndex u (xs.length + 1) g).1).length ≤ m := by
        have h1 := List.length_eraseIdx_add_one hi
        have h2 : (x :: xs).length ≤ m + 1 := hl
        omega
      have hperm := ih ((x :: xs).eraseIdx (randIndex u (xs.length + 1) g).1)
        (randIndex u (xs.length + 1) g).2 hrest
      have hgetD : (x :: xs).getD (randIndex u (xs.length + 1) g).1 x
          = (x :: xs).get ⟨(randIndex u (xs.length + 1) g).1, hi⟩ := by
        rw [List.getD_eq_getElem _ _ hi]
        simp
      show ((x :: xs).getD (randIndex u (xs.length + 1) g).1 x
        :: (shuffleN u m _ _).1).Perm (x :: xs)
      rw [hgetD]
      exact (hperm.cons _).trans (cons_eraseIdx_perm (x :: xs) _ hi)

lemma randShuffle_perm {α : Type} (u : Nat → Nat → ℚ) (l : List α)
    (g : RNG) : ((randShuffle u l g).1).Perm l :=
  shuffleN_perm u l.length l g le_rfl

lemma dayCandidates_fst {d : Nat} {x : Nat × Nat} (hx : x ∈ dayCandidates d) :
    x.1 = d := by
  unfold dayCandidates at hx
  split_ifs at hx <;> · obtain ⟨h, _, rfl⟩ := List.mem_map.mp hx; rfl

lemma dayCandidates_snd {d : Nat} {x : Nat × Nat} (hx : x ∈ dayCandidates d) :
    x.2 < 24 ∧ ((d % 7 ≥ 5 ∧ 10 ≤ x.2 ∧ x.2 ≤ 13) ∨
      (d % 7 < 5 ∧ 19 ≤ x.2 ∧ x.2 ≤ 21)) := by
  unfold dayCandidates at hx
  split_ifs at hx with hw
  · obtain ⟨h, hh, rfl⟩ := List.mem_map.mp hx
    rw [List.mem_range'_1] at hh
    exact ⟨by omega, Or.inl ⟨hw, by omega, by omega⟩⟩
  · obtain ⟨h, hh, rfl⟩ := List.mem_map.mp hx
    rw [List.mem_range'_1] at hh
    exact ⟨by omega, Or.inr ⟨by omega, by omega, by omega⟩⟩

lemma dayCandidates_nodup (d : Nat) : (dayCandidates d).Nodup := by
  unfold dayCandidates
  split_ifs <;>
    exact (List.nodup_range' _ _).map fun a b hab => congrArg Prod.snd hab

lemma weekCandidates_mem {ws : Nat} {x : Nat × Nat}
    (hx : x ∈ weekCandidates ws) :
    ws ≤ x.1 ∧ x.1 ≤ ws + 6 ∧ x.2 < 24 ∧
      ((x.1 % 7 ≥ 5 ∧ 10 ≤ x.2 ∧ x.2 ≤ 13) ∨
        (x.1 % 7 < 5 ∧ 19 ≤ x.2 ∧ x.2 ≤ 21)) := by
  unfold weekCandidates at hx
  obtain ⟨i, hi, hmem⟩ := List.mem_flatMap.mp hx
  rw [List.mem_range] at hi
  have hfst := dayCandidates_fst hmem
  have hsnd := dayCandidates_snd hmem
  refine ⟨by omega, by omega, hsnd.1, ?_⟩
  rw [hfst]
  exact hsnd.2

lemma weekCandidates_nodup (ws : Nat) : (weekCandidates ws).Nodup := by
  unfold weekCandidates
  rw [List.nodup_flatMap]
  refine ⟨fun i _ => dayCandidates_nodup _, ?_⟩
  refine (List.pairwise_lt_range 7).imp ?_
  intro i j hij
  intro x hxi hxj
  have h1 := dayCandidates_fst hxi
  have h2 := dayCandidates_fst hxj
  omega

lemma weekCandidates_length_ge (ws : Nat) : 2 ≤ (weekCandidates ws).length := by
  unfold weekCandidates
  rw [show List.range 7 = [0, 1, 2, 3, 4, 5, 6] from rfl]
  simp only [List.flatMap_cons, List.flatMap_nil, List.append_nil,
    List.length_append]
  have h : 2 ≤ (dayCandidates (ws + 0)).length := by
    unfold dayCandidates
    split_ifs <;> simp
  omega

/-- Counting lemma: filtering a duplicate-free list by membership in a
duplicate-free sublist-of-members recovers exactly that many entries. -/
lemma length_filter_mem_eq {l t : List Nat} (hl : l.Nodup) (ht : t.Nodup)
    (hsub : ∀ x ∈ t, x ∈ l) :
    (l.filter (fun x => x ∈ t)).length = t.length := by
  have hfn : (l.filter (fun x => x ∈ t)).Nodup := hl.filter _
  have hperm : (l.filter (fun x => x ∈ t)).Perm t := by
    apply List.perm_of_nodup_nodup_toFinset_eq hfn ht
    ext x
    simp only [List.mem_toFinset, List.mem_filter, decide_eq_true_eq]
    exact ⟨fun h => h.2, fun h => ⟨hsub x h, h⟩⟩
  exact hperm.length_eq

/-- The summer branch of the hour composition reads neither the furnace
flag, nor the base heating rate, nor the hour's temperature. -/
lemma hourStepPre_summer_congr (u : Nat → Nat → ℚ)
    (hashD : String → Nat → ℤ) (sid : String) (occ : ℤ) (f1 f2 : Bool)
    (s w d : Bool) (bh1 bh2 : ℚ) (dmap : List Nat) (temp1 temp2 : ℚ)
    (t : Nat) (g : RNG) :
    hourStepPre u hashD sid "summer" occ f1 s w d bh1 dmap temp1 t g
      = hourStepPre u hashD sid "summer" occ f2 s w d bh2 dmap temp2 t g := by
  unfold hourStepPre
  rw [if_pos rfl, if_pos rfl]

/-- For two summer scenarios agreeing on id, season, occupancy and the
stove/water-heater/dryer flags, each hour step yields the same usage value
and the same outgoing stream state, whatever the furnace flag, base rate,
temperatures and metadata. -/
lemma hourStep_summer_congr (u : Nat → Nat → ℚ) (hashD : String → Nat → ℤ)
    (sc1 sc2 : Scenario) (hsid : sc1.scenario_id = sc2.scenario_id)
    (hsea1 : sc1.season = "summer") (hsea2 : sc2.season = "summer")
    (hocc : sc1.occupancy = sc2.occupancy) (f1 f2 : Bool) (s w d : Bool)
    (bh1 bh2 : ℚ) (dmap : List Nat) (temps1 temps2 : Nat → Option ℚ)
    (avg1 avg2 : ℚ) (t : Nat) (g : RNG) :
    (hourStep u hashD sc1 f1 s w d bh1 dmap temps1 avg1 t
        g).1.usage_therms
      = (hourStep u hashD sc2 f2 s w d bh2 dmap temps2 avg2 t
          g).1.usage_therms ∧
    (hourStep u hashD sc1 f1 s w d bh1 dmap temps1 avg1 t g).2
      = (hourStep u hashD sc2 f2 s w d bh2 dmap temps2 avg2 t g).2 := by
  have hpre : hourStepPre u hashD sc1.scenario_id sc1.season sc1.occupancy
      f1 s w d bh1 dmap (lookupTemp temps1 t) t g
      = hourStepPre u hashD sc2.scenario_id sc2.season sc2.occupancy f2 s w
          d bh2 dmap (lookupTemp temps2 t) t g := by
    rw [hsid, hocc, hsea1, hsea2]
    exact hourStepPre_summer_congr u hashD sc2.scenario_id sc2.occupancy f1
      f2 s w d bh1 bh2 dmap (lookupTemp temps1 t) (lookupTemp temps2 t) t g
  unfold hourStep
  simp [hpre]

/-- The usage column of the hourly loop is invariant under furnace flag,
base rate, temperatures and metadata for summer scenarios; the loop also
leaves the stream in the same state on both sides. -/
lemma genHours_summer_congr (u : Nat → Nat → ℚ) (hashD : String → Nat → ℤ)
    (sc1 sc2 : Scenario) (hsid : sc1.scenario_id = sc2.scenario_id)
    (hsea1 : sc1.season = "summer") (hsea2 : sc2.season = "summer")
    (hocc : sc1.occupancy = sc2.occupancy) (f1 f2 : Bool) (s w d : Bool)
    (bh1 bh2 : ℚ) (dmap : List Nat) (temps1 temps2 : Nat → Option ℚ)
    (avg1 avg2 : ℚ) :
    ∀ (n cur : Nat) (g : RNG),
      ((genHours u hashD sc1 f1 s w d bh1 dmap temps1 avg1 n cur
          g).1.map HourRow.usage_therms
        = (genHours u hashD sc2 f2 s w d bh2 dmap temps2 avg2 n cur
            g).1.map HourRow.usage_therms) ∧
      (genHours u hashD sc1 f1 s w d bh1 dmap temps1 avg1 n cur g).2
        = (genHours u hashD sc2 f2 s w d bh2 dmap temps2 avg2 n cur g).2 := by
  intro n
  induction n with
  | zero => intro cur g; exact ⟨rfl, rfl⟩
  | succ m ih =>
    intro cur g
    obtain ⟨hu, hg⟩ := hourStep_summer_congr u hashD sc1 sc2 hsid hsea1
      hsea2 hocc f1 f2 s w d bh1 bh2 dmap temps1 temps2 avg1 avg2 cur g
    simp only [genHours, List.map_cons]
    rw [hu, hg]
    exact ⟨by rw [(ih (cur + 1) _).1], by rw [(ih (cur + 1) _).2]⟩

/-! ## Concrete inputs used by witnesses and counterexamples -/

/-- The all-zeros draw source (every `random()` call returns 0). -/
def uZero : Nat → Nat → ℚ := fun _ _ => 0

/-- A draw source whose scenario stream (seed 1337) switches from 0 to 1/2
at position 48. -/
def uStep48 : Nat → Nat → ℚ := fun s i => if s = 1337 ∧ i ≥ 48 then 1/2 else 0

def hashSZero : String → ℤ := fun _ => 0

def hashDZero : String → Nat → ℤ := fun _ _ => 0

def tempsNone : Nat → Option ℚ := fun _ => none

/-- A one-day summer scenario with no recognized appliance tokens. -/
def scEmpty : Scenario := ⟨"e", "summer", 0, 0, 1000, 1, ""⟩

/-- The spec's example scenario: occupancy 1, summer, 1000 sqft, stove only,
single-day range. -/
def scStove : Scenario := ⟨"s", "summer", 0, 0, 1000, 1, "stove"⟩

/-- Same scenario over a two-day range. -/
def scTwoDay : Scenario := ⟨"s", "summer", 0, 1, 1000, 1, "stove"⟩

/-- The example scenario with a furnace added to the appliance string. -/
def scStoveFurnace : Scenario := ⟨"s", "summer", 0, 0, 1000, 1,
  "furnace+stove"⟩

/-- A temperature series that is 30 °F at every hour. -/
def tempsCold : Nat → Option ℚ := fun _ => some 30

/-- A draw source steering the first two shuffle picks to the weekend block
of a dryer week (indices 15 and then 15 of the remainder). -/
def uWeekend : Nat → Nat → ℚ :=
  fun _ i => if i = 0 then 15/23 else if i = 1 then 15/22 else 0

/-- A one-day (Monday) summer scenario with occupancy 4 and a dryer. -/
def scDryerDay : Scenario := ⟨"s", "summer", 0, 0, 1000, 4, "dryer"⟩

/-- The per-band heating multiplier as the spec words it: descending bands
with explicit two-sided bounds (`m=0.3` for `60<t≤70`, ...).  Stated from the
spec, to be compared against `heating_for_temp` from the source. -/
def specBandMultiplier (t : ℚ) : ℚ :=
  if t > 70 then 0
  else if 60 < t ∧ t ≤ 70 then 3/10
  else if 50 < t ∧ t ≤ 60 then 6/10
  else if 40 < t ∧ t ≤ 50 then 9/10
  else 12/10

/-! ## Claims -/

/-- C1: for a fixed global seed, scenario id, and identical inputs, two runs
of the generator produce identical output tables.  The embedding makes the
stronger fact visible: `random.seed(RNG_SEED + hash(id) % 1000000)` discards
whatever state the process-wide generator had, so the output does not depend
on the incoming states `g1`, `g2` at all — the whole table is a function of
the draw source, the hash functions, the scenario, and the temperature
series. -/
theorem C1_determinism (u : Nat → Nat → ℚ) (hashS : String → ℤ)
    (hashD : String → Nat → ℤ) (sc : Scenario) (temps : Nat → Option ℚ)
    (g1 g2 : RNG) :
    generate_scenario u hashS hashD sc temps g1
      = generate_scenario u hashS hashD sc temps g2 := rfl

/-- A placeholder record used only as the `getD` fallback of witness
statements. -/
def rowFallback : HourRow := ⟨0, 0, 0, 0, 0, "", 0, 0, ""⟩

/-- C2 (counterexample): in the spec's example scenario (occupancy 1,
summer, 1000 sqft, stove only, one day), hour 11 can carry nonzero usage —
the hour-11 lunch slot is reachable (probability-gated at 0.4 × 0.25), so
"the only hours that can carry nonzero usage are 07:00 and {18,19,20}" is
false: with the all-zeros draw source the emitted hour-11 value is
1/125 = 0.008, not 0.000. -/
theorem C2_cex :
    ((generate_scenario uZero hashSZero hashDZero scStove tempsNone
        ⟨0, 0⟩).map HourRow.usage_therms).getD 11 0 = 1/125 ∧
    ((generate_scenario uZero hashSZero hashDZero scStove tempsNone
        ⟨0, 0⟩).map HourRow.hour).getD 11 0 = 11 ∧
    (1 : ℚ)/125 ≠ 0 := by
  set_option maxRecDepth 100000 in with_unfolding_all decide

/-- C2 (amended): in every such scenario (occupancy 1, summer, 1000 sqft,
appliances "stove", single-day range), heating never contributes (the summer
composition has no heating term) and the only hours that can carry nonzero
usage are 7 (breakfast), 11 (lunch — omitted by the original claim) and each
of 18, 19, 20 (the dinner hour is re-drawn every hour, so several of them
may fire); every row whose hour is outside {7, 11, 18, 19, 20} is emitted as
exactly 0. -/
theorem C2_stove_example (u : Nat → Nat → ℚ) (hashS : String → ℤ)
    (hashD : String → Nat → ℤ) (temps : Nat → Option ℚ) (g : RNG)
    (sc : Scenario) (hsea : sc.season = "summer")
    (happ : sc.appliances = "stove") (hocc : sc.occupancy = 1)
    (hsqft : sc.home_sqft = 1000) (hday : sc.endDay = sc.startDay) :
    ∀ row ∈ generate_scenario u hashS hashD sc temps g,
      row.hour ∉ ([7, 11, 18, 19, 20] : List Nat) → row.usage_therms = 0 := by
  intro row hrow hh
  have hf : strContains sc.appliances "furnace" = false := by
    rw [happ]; decide
  have hs : strContains sc.appliances "stove" = true := by rw [happ]; decide
  have hw : strContains sc.appliances "water_heater" = false := by
    rw [happ]; decide
  have hd : strContains sc.appliances "dryer" = false := by rw [happ]; decide
  unfold generate_scenario at hrow
  simp only [hf, hs, hw, hd, Bool.false_eq_true, if_false, if_true,
    Bool.true_eq_false, ite_false, ite_true] at hrow
  obtain ⟨t, g1, ht1, ht2, hroweq⟩ :=
    genHours_mem _ _ _ _ _ _ _ _ _ _ _ _ _ _ _ hrow
  subst hroweq
  have hhour : (hourStep u hashD sc false true false false 0 [] temps
      (pyRound6 (target_daily_avg sc.season sc.occupancy sc.home_sqft / 24))
      t g1).1.hour = t % 24 := rfl
  rw [hhour] at hh
  simp only [List.mem_cons, List.mem_singleton, List.not_mem_nil, or_false,
    not_or] at hh
  obtain ⟨h7, h11, h18, h19, h20⟩ := hh
  show (finalizeUsage u _ _).1 = 0
  rw [hourStepPre_stove_only_zero u hashD sc.scenario_id sc.season
    sc.occupancy _ _ t g1 hsea h7 h11 h18 h19 h20]
  rw [finalizeUsage_nonpos _ _ le_rfl]

/-- C2 witness: a concrete out-of-window hour (hour 3 of the example
scenario) is emitted as exactly 0. -/
theorem C2_stove_example_witness :
    ((generate_scenario uZero hashSZero hashDZero scStove tempsNone
        ⟨0, 0⟩).getD 3 rowFallback).usage_therms = 0 := by
  have hlen : (generate_scenario uZero hashSZero hashDZero scStove tempsNone
      ⟨0, 0⟩).length = 24 := by
    unfold generate_scenario
    simp only [genHours_length]
    rfl
  have h3 : 3 < (generate_scenario uZero hashSZero hashDZero scStove
      tempsNone ⟨0, 0⟩).length := by rw [hlen]; norm_num
  have hmem : (generate_scenario uZero hashSZero hashDZero scStove tempsNone
        ⟨0, 0⟩).getD 3 rowFallback
      ∈ generate_scenario uZero hashSZero hashDZero scStove tempsNone
        ⟨0, 0⟩ := by
    rw [List.getD_eq_getElem _ _ h3]
    exact List.getElem_mem h3
  exact C2_stove_example uZero hashSZero hashDZero tempsNone ⟨0, 0⟩ scStove
    rfl rfl rfl rfl rfl _ hmem
    (by set_option maxRecDepth 20000 in with_unfolding_all decide)

/-- C3 (counterexample): the hour-11 lunch-slot decision is NOT made once
per scenario run.  With a two-day stove scenario whose two day seeds
coincide (both 0, so the day-level streams are literally identical) and a
scenario stream that flips from 0 to 1/2 at position 48, the hour-11 row of
day 0 carries lunch usage 1/125 while the hour-11 row of day 1 is exactly 0:
the two hours of the same run saw different lunch-slot choices. -/
theorem C3_cex :
    ((generate_scenario uStep48 hashSZero hashDZero scTwoDay tempsNone
        ⟨0, 0⟩).map HourRow.usage_therms).getD 11 0 = 1/125 ∧
    ((generate_scenario uStep48 hashSZero hashDZero scTwoDay tempsNone
        ⟨0, 0⟩).map HourRow.usage_therms).getD 35 0 = 0 ∧
    ((generate_scenario uStep48 hashSZero hashDZero scTwoDay tempsNone
        ⟨0, 0⟩).map HourRow.hour).getD 11 0 = 11 ∧
    ((generate_scenario uStep48 hashSZero hashDZero scTwoDay tempsNone
        ⟨0, 0⟩).map HourRow.hour).getD 35 0 = 11 ∧
    ((generate_scenario uStep48 hashSZero hashDZero scTwoDay tempsNone
        ⟨0, 0⟩).map HourRow.day).getD 11 99 = 0 ∧
    ((generate_scenario uStep48 hashSZero hashDZero scTwoDay tempsNone
        ⟨0, 0⟩).map HourRow.day).getD 35 99 = 1 ∧
    daySeed hashDZero "s" 0 = daySeed hashDZero "s" 1 ∧
    (1 : ℚ)/125 ≠ 0 := by
  set_option maxRecDepth 100000 in with_unfolding_all decide

/-- C3 (amended): the lunch-slot decision is re-rolled on every call of
`choose_event_hours` — which the generator invokes once per emitted hour —
as a fresh scenario-stream draw against the 0.4 threshold (and the call
always consumes exactly two scenario-stream draws); it is not fixed once per
scenario run, so different hours of one run can see different lunch-slot
choices. -/
theorem C3_lunch_per_call (u : Nat → Nat → ℚ) (s : String) (o : ℤ)
    (g : RNG) :
    (choose_event_hours u s o g).1.lunch
      = (if u g.seed g.idx < 2/5 then [11] else []) ∧
    (choose_event_hours u s o g).2.idx = g.idx + 2 :=
  ⟨rfl, rfl⟩

/-- C4: a shower-hour match contributes exactly `SHOWER_THERMS = 0.10`,
independent of how many occupants landed on the hour — the composer tests
hour membership, so an hour with `count ≥ 2` occupants still contributes
0.10 and never `count × 0.10`. -/
theorem C4_shower_membership (u : Nat → Nat → ℚ) (occ : ℤ) (hour : Nat)
    (g : RNG) :
    (hour ∈ (showers_for_day u occ.toNat g).1 →
      (showerUsage u occ hour g).1 = SHOWER_THERMS) ∧
    (hour ∉ (showers_for_day u occ.toNat g).1 →
      (showerUsage u occ hour g).1 = 0) ∧
    (2 ≤ (showers_for_day u occ.toNat g).1.count hour →
      (showerUsage u occ hour g).1
        ≠ ((showers_for_day u occ.toNat g).1.count hour : ℚ)
            * SHOWER_THERMS) := by
  refine ⟨fun h => by simp [showerUsage, h], fun h => by simp [showerUsage, h],
    fun h2 => ?_⟩
  have hmem : hour ∈ (showers_for_day u occ.toNat g).1 := by
    have : 0 < (showers_for_day u occ.toNat g).1.count hour := by omega
    exact List.count_pos_iff.mp this
  have h1 : (showerUsage u occ hour g).1 = SHOWER_THERMS := by
    simp [showerUsage, hmem]
  rw [h1]
  unfold SHOWER_THERMS
  intro heq
  set c := (showers_for_day u occ.toNat g).1.count hour with hc
  have hq : (c : ℚ) = 1 := by
    have := heq
    field_simp at this
    linarith
  have hcn : c = 1 := by exact_mod_cast hq
  omega

/-- C4 witness: with the all-zeros source and occupancy 3 every shower lands
on hour 7 (count 3 ≥ 2), yet the contribution is exactly 0.10 and differs
from `3 × 0.10`. -/
theorem C4_shower_membership_witness :
    (showerUsage uZero 3 7 ⟨0, 0⟩).1 = SHOWER_THERMS ∧
    (showerUsage uZero 3 7 ⟨0, 0⟩).1
      ≠ ((showers_for_day uZero (3 : ℤ).toNat ⟨0, 0⟩).1.count 7 : ℚ)
          * SHOWER_THERMS :=
  ⟨(C4_shower_membership uZero 3 7 ⟨0, 0⟩).1 (by with_unfolding_all decide),
   (C4_shower_membership uZero 3 7 ⟨0, 0⟩).2.2 (by with_unfolding_all decide)⟩

/-- C5 (counterexample): the claim quantifies over every floor area, but
`home_sqft` is a Python `int` and may be negative; at temperature 65 and
area −2000 the heating model returns −9/250 < 0, so "always non-negative"
fails as stated. -/
theorem C5_cex :
    heating_for_temp 65 (base_heating_rate_sqft (-2000)) = -(9/250) ∧
    ¬(0 ≤ heating_for_temp 65 (base_heating_rate_sqft (-2000))) := by
  with_unfolding_all decide

/-- C5 (amended): for every temperature `t` and floor area `a`, the heating
model returns `m(t) * (0.12 * (a / 2000))` with `m` chosen by the descending
first-match banding (0 above 70; 0.3 on 60–70; 0.6 on 50–60; 0.9 on 40–50;
1.2 at or below 40), and the result is non-negative whenever the floor area
is non-negative (finiteness is inherent to the rational embedding). -/
theorem C5_banding (t : ℚ) (a : ℤ) :
    heating_for_temp t (base_heating_rate_sqft a)
      = specBandMultiplier t * (12/100 * ((a : ℚ) / 2000)) ∧
    (0 ≤ a → 0 ≤ heating_for_temp t (base_heating_rate_sqft a)) := by
  have hEq : heating_for_temp t (base_heating_rate_sqft a)
      = specBandMultiplier t * (12/100 * ((a : ℚ) / 2000)) := by
    unfold heating_for_temp specBandMultiplier base_heating_rate_sqft
    rcases lt_or_le 70 t with h70 | h70
    · simp only [if_pos h70]; ring
    · have h70n : ¬(70 < t) := not_lt.mpr h70
      rcases lt_or_le 60 t with h60 | h60
      · simp only [if_neg h70n, if_pos h60,
          if_pos (show 60 < t ∧ t ≤ 70 from ⟨h60, h70⟩)]
        ring
      · have h60n : ¬(60 < t) := not_lt.mpr h60
        have hB1 : ¬(60 < t ∧ t ≤ 70) := fun hcon => h60n hcon.1
        rcases lt_or_le 50 t with h50 | h50
        · simp only [if_neg h70n, if_neg h60n, if_pos h50, if_neg hB1,
            if_pos (show 50 < t ∧ t ≤ 60 from ⟨h50, h60⟩)]
          ring
        · have h50n : ¬(50 < t) := not_lt.mpr h50
          have hB2 : ¬(50 < t ∧ t ≤ 60) := fun hcon => h50n hcon.1
          rcases lt_or_le 40 t with h40 | h40
          · simp only [if_neg h70n, if_neg h60n, if_neg h50n, if_pos h40,
              if_neg hB1, if_neg hB2,
              if_pos (show 40 < t ∧ t ≤ 50 from ⟨h40, h50⟩)]
            ring
          · have h40n : ¬(40 < t) := not_lt.mpr h40
            have hB3 : ¬(40 < t ∧ t ≤ 50) := fun hcon => h40n hcon.1
            simp only [if_neg h70n, if_neg h60n, if_neg h50n, if_neg h40n,
              if_neg hB1, if_neg hB2, if_neg hB3]
            ring
  refine ⟨hEq, fun ha => ?_⟩
  rw [hEq]
  have hb : (0 : ℚ) ≤ specBandMultiplier t := by
    unfold specBandMultiplier; split_ifs <;> norm_num
  have hc : (0 : ℚ) ≤ (a : ℚ) := by exact_mod_cast ha
  have hd : (0 : ℚ) ≤ 12/100 * ((a : ℚ) / 2000) := by positivity
  exact mul_nonneg hb hd

/-- C5 witness: the amended statement instantiated at `t = 55`,
`a = 2000`. -/
theorem C5_banding_witness :
    heating_for_temp 55 (base_heating_rate_sqft 2000)
      = specBandMultiplier 55 * (12/100 * (((2000 : ℤ) : ℚ) / 2000)) ∧
    0 ≤ heating_for_temp 55 (base_heating_rate_sqft 2000) :=
  ⟨(C5_banding 55 2000).1, (C5_banding 55 2000).2 (by norm_num)⟩

/-- C6: for summer scenarios the heating contribution is zero on every row,
whatever the hour's temperature and whether or not a furnace is installed:
the usage column of two summer runs is identical even when their temperature
series differ arbitrarily and their appliance strings differ in the
"furnace" token (they must agree on the other three tokens and on the
scenario id, dates and occupancy — floor area and metadata may even
differ, as they only feed the heating rate and the copied columns). -/
theorem C6_summer_heating_zero (u : Nat → Nat → ℚ) (hashS : String → ℤ)
    (hashD : String → Nat → ℤ) (sc1 sc2 : Scenario)
    (temps1 temps2 : Nat → Option ℚ) (g1 g2 : RNG)
    (hsid : sc1.scenario_id = sc2.scenario_id)
    (hsea1 : sc1.season = "summer") (hsea2 : sc2.season = "summer")
    (hstart : sc1.startDay = sc2.startDay) (hend : sc1.endDay = sc2.endDay)
    (hocc : sc1.occupancy = sc2.occupancy)
    (hs : strContains sc1.appliances "stove"
      = strContains sc2.appliances "stove")
    (hw : strContains sc1.appliances "water_heater"
      = strContains sc2.appliances "water_heater")
    (hd : strContains sc1.appliances "dryer"
      = strContains sc2.appliances "dryer") :
    (generate_scenario u hashS hashD sc1 temps1 g1).map HourRow.usage_therms
      = (generate_scenario u hashS hashD sc2 temps2 g2).map
          HourRow.usage_therms := by
  unfold generate_scenario
  simp only [hsid, hstart, hend, hocc, hs, hw, hd]
  exact (genHours_summer_congr u hashD sc1 sc2 hsid hsea1 hsea2 hocc _ _ _ _
    _ _ _ _ temps1 temps2 _ _ _ _ _).1

/-- C6 witness: adding a furnace and switching from a missing temperature
series to a constant 30 °F one leaves the usage column of the summer example
scenario unchanged. -/
theorem C6_summer_heating_zero_witness :
    (generate_scenario uZero hashSZero hashDZero scStoveFurnace tempsCold
        ⟨5, 7⟩).map HourRow.usage_therms
      = (generate_scenario uZero hashSZero hashDZero scStove tempsNone
          ⟨0, 0⟩).map HourRow.usage_therms :=
  C6_summer_heating_zero uZero hashSZero hashDZero scStoveFurnace scStove
    tempsCold tempsNone ⟨5, 7⟩ ⟨0, 0⟩ rfl rfl rfl rfl rfl rfl
    (by with_unfolding_all decide) (by with_unfolding_all decide)
    (by with_unfolding_all decide)

/-- C7: for occupancy 4 and a 7-day range with a dryer, exactly
`round(4/2) = 2` hours of the run are scheduled dryer hours (each carrying
the fixed 0.30-therm pre-jitter contribution in the composer), and every
scheduled hour lies in hours 19-21 of a weekday or hours 10-13 of a weekend
day of the range. -/
theorem C7_dryer_load_count (u : Nat → Nat → ℚ) (startDay : Nat) (g : RNG) :
    ((List.range' (startDay * 24) 168).filter
        (fun t => t ∈ (distribute_dryer_hours u startDay (startDay + 6) 4
          g).1)).length = dryer_load_hours_for_week 4 ∧
    dryer_load_hours_for_week 4 = 2 ∧
    ∀ t ∈ (distribute_dryer_hours u startDay (startDay + 6) 4 g).1,
      dryerAddend true (distribute_dryer_hours u startDay (startDay + 6) 4
          g).1 t = DRYER_THERMS_PER_LOAD ∧
      startDay * 24 ≤ t ∧ t ≤ startDay * 24 + 167 ∧
      ((t / 24) % 7 < 5 ∧ 19 ≤ t % 24 ∧ t % 24 ≤ 21 ∨
        5 ≤ (t / 24) % 7 ∧ 10 ≤ t % 24 ∧ t % 24 ≤ 13) := by
  have hloads : dryer_load_hours_for_week 4 = 2 := by
    with_unfolding_all decide
  have hweeks : (if startDay ≤ startDay + 6
      then (startDay + 6 - startDay) / 7 + 1 else 0) = 1 := by
    rw [if_pos (by omega)]
    omega
  have h1 : (distribute_dryer_hours u startDay (startDay + 6) 4 g).1
      = ((randShuffle u (weekCandidates startDay) g).1.take 2).map
          (fun dh => dh.1 * 24 + dh.2) := by
    unfold distribute_dryer_hours
    rw [hloads, hweeks]
    simp [distributeGo]
  have hperm : ((randShuffle u (weekCandidates startDay) g).1).Perm
      (weekCandidates startDay) := randShuffle_perm u _ g
  have hndS : ((randShuffle u (weekCandidates startDay) g).1).Nodup :=
    hperm.nodup_iff.mpr (weekCandidates_nodup startDay)
  have hlen2 : 2 ≤ ((randShuffle u (weekCandidates startDay) g).1).length := by
    rw [hperm.length_eq]
    exact weekCandidates_length_ge startDay
  have htakeLen :
      (((randShuffle u (weekCandidates startDay) g).1).take 2).length = 2 := by
    rw [List.length_take]
    omega
  have htakeN : (((randShuffle u (weekCandidates startDay) g).1).take
      2).Nodup := (List.take_sublist 2 _).nodup hndS
  have hsubC : ∀ x ∈ ((randShuffle u (weekCandidates startDay) g).1).take 2,
      x ∈ weekCandidates startDay :=
    fun x hx => hperm.subset (List.take_subset 2 _ hx)
  have htimesN : ((((randShuffle u (weekCandidates startDay) g).1).take
      2).map (fun dh => dh.1 * 24 + dh.2)).Nodup := by
    refine htakeN.map_on ?_
    intro x hx y hy hxy
    have h1x := weekCandidates_mem (hsubC x hx)
    have h1y := weekCandidates_mem (hsubC y hy)
    rcases x with ⟨x1, x2⟩
    rcases y with ⟨y1, y2⟩
    simp only [Prod.mk.injEq]
    simp only at hxy h1x h1y
    omega
  have htimesLen : ((((randShuffle u (weekCandidates startDay) g).1).take
      2).map (fun dh => dh.1 * 24 + dh.2)).length = 2 := by
    rw [List.length_map, htakeLen]
  have htimesMem : ∀ t ∈ (((randShuffle u (weekCandidates startDay)
        g).1).take 2).map (fun dh => dh.1 * 24 + dh.2),
      startDay * 24 ≤ t ∧ t ≤ startDay * 24 + 167 ∧
      ((t / 24) % 7 < 5 ∧ 19 ≤ t % 24 ∧ t % 24 ≤ 21 ∨
        5 ≤ (t / 24) % 7 ∧ 10 ≤ t % 24 ∧ t % 24 ≤ 13) := by
    intro t ht
    obtain ⟨x, hx, rfl⟩ := List.mem_map.mp ht
    have hc := weekCandidates_mem (hsubC x hx)
    obtain ⟨hc1, hc2, hc3, hc4⟩ := hc
    refine ⟨by omega, by omega, ?_⟩
    rcases hc4 with hwend | hwday
    · right
      omega
    · left
      omega
  refine ⟨?_, hloads, ?_⟩
  · rw [h1, hloads]
    rw [length_filter_mem_eq (List.nodup_range' _ _) htimesN ?_]
    · exact htimesLen
    · intro x hx
      rw [List.mem_range'_1]
      have := htimesMem x hx
      omega
  · intro t ht
    rw [h1] at ht
    have hm := htimesMem t ht
    refine ⟨?_, hm.1, hm.2.1, hm.2.2⟩
    rw [h1]
    unfold dryerAddend
    rw [if_pos ⟨rfl, ht⟩]

/-- C7 witness: the schedule at the all-zeros draw source, week starting at
day 0, with the two scheduled hours 19:00 and 20:00 of day 0 (a Monday). -/
theorem C7_dryer_load_count_witness :
    ((List.range' 0 168).filter
        (fun t => t ∈ (distribute_dryer_hours uZero 0 6 4
          ⟨1337, 0⟩).1)).length = dryer_load_hours_for_week 4 ∧
    dryerAddend true (distribute_dryer_hours uZero 0 6 4 ⟨1337, 0⟩).1 19
      = DRYER_THERMS_PER_LOAD := by
  have h := C7_dryer_load_count uZero 0 ⟨1337, 0⟩
  refine ⟨by simpa using h.1,
    (h.2.2 19 (by with_unfolding_all decide)).1⟩

/-- C8: an hour whose composed pre-jitter usage is zero (or non-positive)
skips the jitter layer entirely — the stream is not consumed — and is
emitted as exactly 0; at the row level, a zero pre-jitter composition yields
a `usage_therms` field of exactly 0 and leaves the scenario stream where the
composition left it. -/
theorem C8_zero_hour_jitter (u : Nat → Nat → ℚ) (g : RNG) :
    finalizeUsage u 0 g = (0, g) ∧
    (∀ x : ℚ, x ≤ 0 → finalizeUsage u x g = (0, g)) ∧
    ∀ (hashD : String → Nat → ℤ) (sc : Scenario) (f1 f2 f3 f4 : Bool)
      (bh : ℚ) (dmap : List Nat) (temps : Nat → Option ℚ) (avg : ℚ)
      (t : Nat),
      (hourStepPre u hashD sc.scenario_id sc.season sc.occupancy f1 f2 f3 f4
          bh dmap (lookupTemp temps t) t g).1 = 0 →
      (hourStep u hashD sc f1 f2 f3 f4 bh dmap temps avg t
          g).1.usage_therms = 0 ∧
      (hourStep u hashD sc f1 f2 f3 f4 bh dmap temps avg t g).2
        = (hourStepPre u hashD sc.scenario_id sc.season sc.occupancy f1 f2 f3
            f4 bh dmap (lookupTemp temps t) t g).2 := by
  refine ⟨finalizeUsage_nonpos u g le_rfl,
    fun x hx => finalizeUsage_nonpos u g hx, ?_⟩
  intro hashD sc f1 f2 f3 f4 bh dmap temps avg t hpre
  constructor
  · show (finalizeUsage u _ _).1 = 0
    rw [hpre, finalizeUsage_nonpos _ _ le_rfl]
  · show (finalizeUsage u _ _).2 = _
    rw [hpre, finalizeUsage_nonpos _ _ le_rfl]

/-- C8 witness: the zero-composition hour of a no-appliance scenario is
emitted as exactly 0. -/
theorem C8_zero_hour_jitter_witness :
    finalizeUsage uZero 0 ⟨0, 0⟩ = (0, ⟨0, 0⟩) ∧
    (hourStep uZero hashDZero scEmpty false false false false 0 [] tempsNone
        0 0 ⟨0, 0⟩).1.usage_therms = 0 :=
  ⟨(C8_zero_hour_jitter uZero ⟨0, 0⟩).1,
   ((C8_zero_hour_jitter uZero ⟨0, 0⟩).2.2 hashDZero scEmpty false false
      false false 0 [] tempsNone 0 0 (by with_unfolding_all decide)).1⟩

/-- C10: when the date range is not a multiple of 7 days, the dryer
schedule's last 7-day block extends past the end date and loads can be
scheduled strictly after the last emitted hour; they are then silently
dropped.  Concretely: for a one-day range (day 0, a Monday; last emitted
hour is absolute hour 23) with occupancy 4, a draw source that shuffles the
weekend candidates to the front schedules both loads at hours 130 and 131
(Saturday 10:00 and 11:00), the weekly load count is `round(4/2) = 2`, yet
zero of the range's 24 hours are dryer hours and the generated table —
dryer being the only appliance — is identically zero. -/
theorem C10_dryer_overflow :
    (distribute_dryer_hours uWeekend 0 0 4 ⟨1337, 0⟩).1 = [130, 131] ∧
    dryer_load_hours_for_week 4 = 2 ∧
    (23 < 130 ∧ 23 < 131) ∧
    ((List.range' 0 24).filter
        (fun t => t ∈ (distribute_dryer_hours uWeekend 0 0 4
          ⟨1337, 0⟩).1)).length = 0 ∧
    (0 : Nat) < 2 ∧
    (generate_scenario uWeekend hashSZero hashDZero scDryerDay tempsNone
        ⟨0, 0⟩).map HourRow.usage_therms = List.replicate 24 0 := by
  set_option maxRecDepth 100000 in with_unfolding_all decide

/-- C9: an hour missing from the temperature series does not fail: the
lookup falls back to the fixed default 72 °F, the hour's row is exactly the
row that would be produced had 72 been present, and the run still emits one
row per hour of the range. -/
theorem C9_missing_temp_fallback (temps : Nat → Option ℚ) (t : Nat)
    (hmiss : temps t = none) :
    lookupTemp temps t = 72 ∧
    (∀ (u : Nat → Nat → ℚ) (hashD : String → Nat → ℤ) (sc : Scenario)
      (f1 f2 f3 f4 : Bool) (bh : ℚ) (dmap : List Nat) (avg : ℚ) (g : RNG),
      hourStep u hashD sc f1 f2 f3 f4 bh dmap temps avg t g
        = hourStep u hashD sc f1 f2 f3 f4 bh dmap
            (fun s => if s = t then some 72 else temps s) avg t g) ∧
    (∀ (u : Nat → Nat → ℚ) (hashS : String → ℤ)
      (hashD : String → Nat → ℤ) (sc : Scenario) (g : RNG),
      (generate_scenario u hashS hashD sc temps g).length
        = sc.endDay * 24 + 24 - sc.startDay * 24) := by
  refine ⟨by simp [lookupTemp, hmiss], ?_, ?_⟩
  · intro u hashD sc f1 f2 f3 f4 bh dmap avg g
    have h1 : lookupTemp temps t
        = lookupTemp (fun s => if s = t then some 72 else temps s) t := by
      simp [lookupTemp, hmiss]
    unfold hourStep
    rw [h1]
  · intro u hashS hashD sc g
    unfold generate_scenario
    simp only [genHours_length]

/-- C9 witness: the fallback and the row-count law at the empty temperature
series and the one-day scenario. -/
theorem C9_missing_temp_fallback_witness :
    lookupTemp tempsNone 0 = 72 ∧
    (generate_scenario uZero hashSZero hashDZero scEmpty tempsNone
        ⟨0, 0⟩).length = 24 := by
  refine ⟨(C9_missing_temp_fallback tempsNone 0 rfl).1, ?_⟩
  have h := (C9_missing_temp_fallback tempsNone 0 rfl).2.2 uZero hashSZero
    hashDZero scEmpty ⟨0, 0⟩
  simpa using h

end GasGen
